import Mathlib

/-!
Shallow embedding of the Cineby Stremio addon (Express + axios, JavaScript),
covering the build-identifier cache, the retry-on-stale-identifier wrapper,
the upstream request executor, and the pure response-projection helpers.

Modelling conventions:
- JS values that may be `null`/`undefined` are `Option _`; JS truthiness of
  strings and numbers is made explicit where the source relies on it.
- Network effects are parameters: a fetch outcome is passed in as data, and the
  embedded function returns the new state together with a flag recording
  whether the network was touched.
- All embedded functions are total; the JS originals catch their own errors,
  which the embedding reflects by returning `Option`/`Except` values.
-/

namespace Cineby

/-- Mutable client state of `CinebyClient` (variant with `buildIdFetchedAt`):
the cached build identifier and the timestamp (ms) at which it was fetched.
`buildId` starts as `null` (`none`) and `buildIdFetchedAt` as `0`. -/
structure Session where
  buildId : Option String
  buildIdFetchedAt : Nat
deriving DecidableEq

/-- JS truthiness of a nullable string: `null`/`undefined` and the empty
string are falsy; every other string is truthy. -/
def truthyStr : Option String → Bool
  | none => false
  | some s => s != ""

/-- The cache TTL used by `getBuildId`: `3600 * 1000` milliseconds (1 hour). -/
def buildIdTtlMs : Nat := 3600 * 1000

/-- Result of one `getBuildId` call: the updated client state, the returned
identifier, and whether the call performed a network request. -/
structure GetBuildIdResult where
  session : Session
  ret : Option String
  networkUsed : Bool
deriving DecidableEq

/-- Embedding of `CinebyClient.getBuildId(forceRefresh)` (the cached variant):

- if not forced, a truthy identifier is cached and `now - fetchedAt < ttl`,
  return the cached identifier without touching the network;
- otherwise fetch the homepage and run the buildId regex. `fetched = some v`
  models a response whose body matched with capture `v` (state is updated to
  `v` at time `now`); `fetched = none` models a thrown axios error or a body
  with no match — both fall through and return the previous `buildId`.

The JS function catches its own fetch error, so it never throws; the
embedding is correspondingly total. `now` is in ms with `now ≥ fetchedAt`
for every state the program reaches (Nat subtraction matches JS there). -/
def getBuildId (s : Session) (forceRefresh : Bool) (now : Nat)
    (fetched : Option String) : GetBuildIdResult :=
  if forceRefresh = false ∧ truthyStr s.buildId = true ∧
      now - s.buildIdFetchedAt < buildIdTtlMs then
    { session := s, ret := s.buildId, networkUsed := false }
  else
    match fetched with
    | some v =>
        { session := { buildId := some v, buildIdFetchedAt := now },
          ret := some v, networkUsed := true }
    | none => { session := s, ret := s.buildId, networkUsed := true }

/-- An error thrown by an axios call: either an HTTP error response carrying a
status (`err.response.status`), or a network-level error with no response
(`err.response` undefined: timeout, connection failure). -/
inductive JsError where
  | http (status : Nat)
  | network
deriving DecidableEq

/-- The stale-identifier test in `_withBuildIdRetry`:
`err.response && (err.response.status === 404 || err.response.status === 500)`. -/
def staleStatus : JsError → Bool
  | .http s => s == 404 || s == 500
  | .network => false

/-- Observable outcome of one `_withBuildIdRetry(fn)` call: the value it
resolves to, the number of forced refreshes (`getBuildId(true)` calls) it
performed, and the number of times it executed `fn`. The initial warm-up
`getBuildId(false)` is unconditional and not a forced refresh, so it is not
counted in `forcedRefreshes`. -/
structure RetryOutcome (α : Type) where
  result : Option α
  forcedRefreshes : Nat
  runs : Nat
deriving DecidableEq

/-- Embedding of `CinebyClient._withBuildIdRetry(fn)`. `fn k` is the outcome
of the (k+1)-th execution of the wrapped operation: `.ok a` if it resolves
with `a`, `.error e` if it rejects with `e`. The wrapper executes `fn` once;
on a 404/500 HTTP error it forces one refresh and executes `fn` once more,
resolving to `null` if that also fails; on any other error it resolves to
`null` immediately. Both failure paths end in `return null`, so nothing
propagates past the wrapper. -/
def withBuildIdRetry {α : Type} (fn : Nat → Except JsError α) : RetryOutcome α :=
  match fn 0 with
  | .ok a => { result := some a, forcedRefreshes := 0, runs := 1 }
  | .error e =>
    if staleStatus e then
      match fn 1 with
      | .ok a => { result := some a, forcedRefreshes := 1, runs := 2 }
      | .error _ => { result := none, forcedRefreshes := 1, runs := 2 }
    else { result := none, forcedRefreshes := 0, runs := 1 }

/-- C1: if the first execution fails with HTTP 404 or 500, the wrapper does
exactly one forced refresh and exactly one re-execution; on any other HTTP
status it does zero refreshes and zero retries and resolves to absent; on a
non-HTTP error likewise; and whenever both executions fail the wrapper
resolves to absent (it never lets an error escape: it is a total function). -/
theorem withBuildIdRetry_policy {α : Type} (fn : Nat → Except JsError α) :
    (∀ s : Nat, fn 0 = .error (.http s) → (s = 404 ∨ s = 500) →
      (withBuildIdRetry fn).forcedRefreshes = 1 ∧ (withBuildIdRetry fn).runs = 2)
    ∧ (∀ s : Nat, fn 0 = .error (.http s) → s ≠ 404 → s ≠ 500 →
      withBuildIdRetry fn = { result := none, forcedRefreshes := 0, runs := 1 })
    ∧ (fn 0 = .error .network →
      withBuildIdRetry fn = { result := none, forcedRefreshes := 0, runs := 1 })
    ∧ (∀ e e2 : JsError, fn 0 = .error e → fn 1 = .error e2 →
      (withBuildIdRetry fn).result = none) := by
  refine ⟨?_, ?_, ?_, ?_⟩
  · intro s h hs
    have hstale : staleStatus (JsError.http s) = true := by
      rcases hs with hs | hs <;> simp [staleStatus, hs]
    cases h2 : fn 1 with
    | ok a => simp [withBuildIdRetry, h, hstale, h2]
    | error e2 => simp [withBuildIdRetry, h, hstale, h2]
  · intro s h h4 h5
    have hstale : staleStatus (JsError.http s) = false := by
      simp [staleStatus, h4, h5]
    simp [withBuildIdRetry, h, hstale]
  · intro h
    simp [withBuildIdRetry, h, staleStatus]
  · intro e e2 h h2
    cases hstale : staleStatus e <;> simp [withBuildIdRetry, h, hstale, h2]

/-- Concrete operation that fails with 404 on its first execution and
succeeds on the retry. -/
def opStale : Nat → Except JsError Nat :=
  fun n => if n = 0 then .error (.http 404) else .ok 7

/-- Concrete operation that always fails with 403. -/
def opForbidden : Nat → Except JsError Nat :=
  fun _ => .error (.http 403)

/-- Witness for C1: a first failure with status 404 yields one forced refresh
and two executions, and a failure with status 403 yields the absent result
with zero refreshes and a single execution. -/
theorem withBuildIdRetry_policy_witness :
    ((withBuildIdRetry opStale).forcedRefreshes = 1 ∧ (withBuildIdRetry opStale).runs = 2)
    ∧ withBuildIdRetry opForbidden
        = { result := none, forcedRefreshes := 0, runs := 1 } :=
  ⟨(withBuildIdRetry_policy opStale).1 404 rfl (Or.inl rfl),
   (withBuildIdRetry_policy opForbidden).2.1 403 rfl (by decide) (by decide)⟩

/-- C2: a non-forced `getBuildId` call finding a truthy cached identifier
whose age is strictly below the 1-hour TTL performs no network request,
returns exactly the cached identifier, and leaves the state unchanged
(in particular the result does not depend on what a fetch would have
produced). -/
theorem getBuildId_cache_fresh (s : Session) (now : Nat) (fetched : Option String)
    (b : String) (hb : s.buildId = some b) (hne : b ≠ "")
    (hfresh : now - s.buildIdFetchedAt < buildIdTtlMs) :
    getBuildId s false now fetched
      = { session := s, ret := some b, networkUsed := false } := by
  have ht : truthyStr (some b) = true := by simp [truthyStr, hne]
  simp [getBuildId, hb, ht, hfresh]

/-- Witness for C2: with identifier "abc" fetched at t=100 and now=200 the
call is answered from the cache even though a fetch would have found "zzz". -/
theorem getBuildId_cache_fresh_witness :
    getBuildId { buildId := some "abc", buildIdFetchedAt := 100 } false 200 (some "zzz")
      = { session := { buildId := some "abc", buildIdFetchedAt := 100 },
          ret := some "abc", networkUsed := false } :=
  getBuildId_cache_fresh _ 200 (some "zzz") "abc" rfl (by decide) (by decide)

/-- Client state of the server.js `CinebyClient`: `buildId` starts as a
hardcoded default string and is never absent; no fetch timestamp is kept. -/
structure ServerSession where
  buildId : String
deriving DecidableEq

/-- The hardcoded fallback build identifier of the server.js client. -/
def defaultBuildId : String := "7xu4PEyycasyUF-xW91f5"

/-- Result of one server.js `getBuildId()` call: the updated client state and
the value the async function resolves with. The function body has no return
statement, so it always resolves `undefined` (`ret = none`). -/
structure ServerGetBuildIdResult where
  session : ServerSession
  ret : Option String
deriving DecidableEq

/-- Embedding of server.js `getBuildId()` (lines 74-85): fetch the homepage
and run the buildId regex on every call (no cache test). `fetched = some v`
models a body matching with capture `v` (assigned to `this.buildId`);
`fetched = none` models a thrown fetch error or a non-matching body, which
leave the field untouched. Either way nothing is returned. The catch makes
the JS function non-throwing; the embedding is total. -/
def getBuildIdServer (s : ServerSession) (fetched : Option String) :
    ServerGetBuildIdResult :=
  match fetched with
  | some v => { session := { buildId := v }, ret := none }
  | none => { session := s, ret := none }

/-- C3 counterexample: the claim also covers the server.js `getBuildId`
(lines 74-85), which has no return statement. After a successful fetch has
cached the identifier "abc", a call whose fetch fails leaves the state
unchanged but resolves `undefined` — it does not return the prior cached
identifier "abc" as the claim states. -/
theorem getBuildId_return_counterexample :
    (getBuildIdServer { buildId := defaultBuildId } (some "abc")).session
      = { buildId := "abc" }
    ∧ getBuildIdServer { buildId := "abc" } none
        = { session := { buildId := "abc" }, ret := none }
    ∧ (getBuildIdServer { buildId := "abc" } none).ret ≠ some "abc" := by
  refine ⟨rfl, rfl, ?_⟩
  intro h
  exact Option.noConfusion h

/-- C3 amended: on a fetch or parse failure every variant leaves its cached
identifier state exactly as it was and raises nothing (each variant catches
its own error; the embeddings are total functions). The part_001-family
`getBuildId(forceRefresh)` additionally returns the prior cached identifier
(absent when none was ever fetched), stated for both values of
`forceRefresh`; the server.js variant instead keeps a hardcoded, never-absent
default and always resolves `undefined`. -/
theorem getBuildId_failure_amended :
    (∀ (s : Session) (forceRefresh : Bool) (now : Nat),
      (getBuildId s forceRefresh now none).session = s
      ∧ (getBuildId s forceRefresh now none).ret = s.buildId)
    ∧ (∀ sv : ServerSession,
        getBuildIdServer sv none = { session := sv, ret := none }) := by
  constructor
  · intro s forceRefresh now
    unfold getBuildId
    split <;> simp
  · intro sv
    rfl

/-- The static genre table of `mapGenreIds` (`genreMap` in the source):
upstream integer genre id to display label. Ids absent from the table map to
`none`, the embedding of a JS `undefined` lookup. -/
def genreMap : Nat → Option String
  | 28 => some "Action"
  | 35 => some "Comedy"
  | 18 => some "Drama"
  | 27 => some "Horror"
  | 878 => some "Science Fiction"
  | 53 => some "Thriller"
  | 12 => some "Adventure"
  | 16 => some "Animation"
  | 80 => some "Crime"
  | 99 => some "Documentary"
  | 10751 => some "Family"
  | 14 => some "Fantasy"
  | 36 => some "History"
  | 10402 => some "Music"
  | 9648 => some "Mystery"
  | 10749 => some "Romance"
  | 10770 => some "TV Movie"
  | 37 => some "Western"
  | 10752 => some "War"
  | 10759 => some "Action & Adventure"
  | 10762 => some "Kids"
  | 10763 => some "News"
  | 10764 => some "Reality"
  | 10765 => some "Sci-Fi & Fantasy"
  | 10766 => some "Soap"
  | 10767 => some "Talk"
  | 10768 => some "War & Politics"
  | _ => none

/-- Embedding of `mapGenreIds(genreIds)`: map each id through the table and
drop falsy results (`filter(Boolean)` drops the `undefined` produced by an
unmapped id; no table label is the empty string, so `reduceOption` — keep
the `some`s — is exact). -/
def mapGenreIds (genreIds : List Nat) : List String :=
  (genreIds.map genreMap).reduceOption

/-- C6: `mapGenreIds` returns the labels of exactly those input ids present
in the static table, in input order, dropping every unmapped id with no
placeholder; in particular on `[28, 99999, 35]` it yields
`["Action", "Comedy"]`. -/
theorem mapGenreIds_spec (ids : List Nat) :
    mapGenreIds ids
      = (ids.filter (fun i => (genreMap i).isSome)).map (fun i => (genreMap i).getD "")
    ∧ mapGenreIds [28, 99999, 35] = ["Action", "Comedy"] := by
  constructor
  · induction ids with
    | nil => rfl
    | cons i rest ih =>
      cases h : genreMap i with
      | none => simpa [mapGenreIds, List.reduceOption, h] using ih
      | some v => simpa [mapGenreIds, List.reduceOption, h] using ih
  · rfl

/-- One upstream item as consumed by `transformToStremioMeta`. Fields the
transform reads; every one may be absent in the duck-typed payload. The
numeric `rating` is modelled at `Nat` granularity: only its truthiness and
its decimal rendering are ever used, and no claim depends on fractional
ratings. -/
structure Item where
  id : Option Nat
  mediaType : Option String
  title : Option String
  poster : Option String
  image : Option String
  description : Option String
  release_date : Option String
  rating : Option Nat
  genre_ids : Option (List Nat)
  original_language : Option String
deriving DecidableEq

/-- JS template-string rendering of a possibly-undefined number:
`undefined` interpolates as the text "undefined". -/
def jsShowNat : Option Nat → String
  | none => "undefined"
  | some n => toString n

/-- The projected meta produced by `transformToStremioMeta`. The JS field
`type` is spelled `mtype` (`type` is a Lean keyword). -/
structure StremioMeta where
  id : String
  mtype : String
  name : Option String
  poster : Option String
  background : Option String
  description : Option String
  releaseInfo : Option String
  imdbRating : Option String
  genres : List String
  language : Option String
deriving DecidableEq

/-- Embedding of `CinebyClient.transformToStremioMeta(item)` (server.js):
`isMovie = item.mediaType === 'movie'`; type is `'movie'` when that strict
comparison holds and `'series'` otherwise. `rating ? rating.toString() :
null` treats 0 (and undefined) as falsy. `item.genre_ids || []` defaults the
genre list. -/
def transformToStremioMeta (item : Item) : StremioMeta :=
  let isMovie := item.mediaType == some "movie"
  { id := "cineby:" ++ jsShowNat item.id
    mtype := if isMovie then "movie" else "series"
    name := item.title
    poster := item.poster
    background := item.image
    description := item.description
    releaseInfo := item.release_date
    imdbRating :=
      match item.rating with
      | some r => if r ≠ 0 then some (toString r) else none
      | none => none
    genres := mapGenreIds (item.genre_ids.getD [])
    language := item.original_language }

/-- C9: the projected type is "movie" exactly when the item's mediaType is
the string "movie"; absent or unexpected values (strict equality fails) are
classified as "series"; hence the output type is always one of the two. -/
theorem transformToStremioMeta_type (item : Item) :
    ((transformToStremioMeta item).mtype = "movie" ↔ item.mediaType = some "movie")
    ∧ ((transformToStremioMeta item).mtype = "movie"
        ∨ (transformToStremioMeta item).mtype = "series") := by
  by_cases h : item.mediaType = some "movie" <;>
    simp [transformToStremioMeta, h]

/-- Outcome of one upstream GET attempt, seen at the axios boundary: either
the server produced a response with a status and a (parsed) body, or the
request failed at the network level (timeout, connection failure). -/
inductive UpstreamOutcome (δ : Type) where
  | response (status : Nat) (body : δ)
  | networkError
deriving DecidableEq

/-- The axios call as configured by `CinebyClient` with
`validateStatus: (status) => status < 500`: a response with status below 500
resolves; a status of 500 or above rejects with an HTTP error; a network
failure rejects with a response-less error. -/
def axiosGetTolerant {δ : Type} (o : UpstreamOutcome δ) : Except JsError (Nat × δ) :=
  match o with
  | .response status body =>
      if status < 500 then .ok (status, body) else .error (.http status)
  | .networkError => .error .network

/-- Embedding of `CinebyClient.makeRequest(url, params)`: perform the
tolerant axios GET; on a resolved response return the body when the status
is exactly 200 and `null` otherwise (after a warning log); catch every
rejection and return `null`. -/
def makeRequest {δ : Type} (o : UpstreamOutcome δ) : Option δ :=
  match axiosGetTolerant o with
  | .ok (status, body) => if status == 200 then some body else none
  | .error _ => none

/-- C8 counterexample: the claim says the parsed body is returned for every
2xx status, but `makeRequest` compares the status to 200 with strict
equality, so a 204 response's body is dropped and the result is absent. -/
theorem makeRequest_2xx_counterexample :
    makeRequest (UpstreamOutcome.response 204 (0 : Nat)) = none
    ∧ makeRequest (UpstreamOutcome.response 204 (0 : Nat)) ≠ some 0 := by
  constructor
  · rfl
  · intro h
    simp [makeRequest, axiosGetTolerant] at h

/-- C8 amended: the body is returned exactly for status 200; every other
status — other 2xx, 3xx, 4xx (resolved but discarded) and 5xx (rejected by
`validateStatus` and caught) — yields an absent result, as does a network
error; the executor is total, so no error reaches the caller. -/
theorem makeRequest_policy {δ : Type} (status : Nat) (body : δ) :
    makeRequest (UpstreamOutcome.response 200 body) = some body
    ∧ (status ≠ 200 → makeRequest (UpstreamOutcome.response status body) = none)
    ∧ makeRequest (UpstreamOutcome.networkError : UpstreamOutcome δ) = none := by
  refine ⟨by simp [makeRequest, axiosGetTolerant], ?_, rfl⟩
  intro hne
  by_cases h5 : status < 500 <;> simp [makeRequest, axiosGetTolerant, h5, hne]

/-- Witness for C8 (amended): status 200 returns the body and status 404
returns absent, at body 5. -/
theorem makeRequest_policy_witness :
    makeRequest (UpstreamOutcome.response 200 (5 : Nat)) = some 5
    ∧ makeRequest (UpstreamOutcome.response 404 (5 : Nat)) = none :=
  ⟨(makeRequest_policy 404 (5 : Nat)).1,
   (makeRequest_policy 404 (5 : Nat)).2.1 (by decide)⟩

/-- One upstream stream source: url, quality label and container kind (the JS
field `type`, spelled `container` here since `type` is a Lean keyword). -/
structure Source where
  url : Option String
  quality : Option String
  container : Option String
deriving DecidableEq

/-- One entry of the stream route response. `notWebReady` is the single
behavior hint the route sets. -/
structure StreamEntry where
  url : Option String
  title : String
  notWebReady : Bool
deriving DecidableEq

/-- The displayed quality label: `source.quality || 'Auto'`, so an absent or
empty quality becomes "Auto". -/
def qualityLabel (s : Source) : String :=
  match s.quality with
  | some q => if q = "" then "Auto" else q
  | none => "Auto"

/-- Projection of one source at position `idx` (0-based) into a stream entry:
title template `QUALITY - Server N` with `N = idx + 1`, and
`notWebReady: source.type !== 'mp4'`. -/
def mkStreamEntry (idx : Nat) (s : Source) : StreamEntry :=
  { url := s.url
    title := qualityLabel s ++ " - Server " ++ toString (idx + 1)
    notWebReady := s.container != some "mp4" }

/-- The stream route's map step: project every source in upstream order with
its index. -/
def projectStreams (sources : List Source) : List StreamEntry :=
  sources.mapIdx mkStreamEntry

/-- The fixed quality-rank table of the sort comparator, with the JS
`qualityOrder[q] || 0` default: labels outside the table rank 0. -/
def qualityOrder (q : String) : Nat :=
  if q = "1080p" then 4
  else if q = "720p" then 3
  else if q = "480p" then 2
  else if q = "Auto" then 1
  else 0

/-- Characters of a list strictly before the first occurrence of `sep`
(the whole list when `sep` does not occur): the first piece of a JS
`split(sep)`. -/
def takeBeforeSep (sep : List Char) : List Char → List Char
  | [] => []
  | c :: rest => if sep.isPrefixOf (c :: rest) then [] else c :: takeBeforeSep sep rest

/-- The comparator's quality recovery: `title.split(' - ')[0]`. -/
def titleQuality (t : String) : String :=
  String.mk (takeBeforeSep [' ', '-', ' '] t.data)

/-- Rank of a stream entry under the comparator: table rank of the quality
recovered from its title. -/
def entryRank (e : StreamEntry) : Nat :=
  qualityOrder (titleQuality e.title)

/-- The total preorder realised by the JS comparator
`(qualityOrder[bq] || 0) - (qualityOrder[aq] || 0)`: `a` may precede `b`
exactly when the rank of `b` does not exceed the rank of `a`. -/
def qualityGE (a b : StreamEntry) : Prop := entryRank b ≤ entryRank a

instance : DecidableRel qualityGE :=
  fun a b => inferInstanceAs (Decidable (entryRank b ≤ entryRank a))

instance : IsTotal StreamEntry qualityGE :=
  ⟨fun a b => le_total (entryRank b) (entryRank a)⟩

instance : IsTrans StreamEntry qualityGE :=
  ⟨fun _ _ _ hab hbc => le_trans hbc hab⟩

/-- Embedding of `streams.sort(comparator)`. JS `Array.prototype.sort` is
stable, and a stable sort under a rank comparator is uniquely determined:
rank descending, ties in original order. `List.insertionSort` over
`qualityGE` realises exactly that output (it is sorted, a permutation of the
input, and stable — the stability is proved below as an invariance of every
fixed-rank fibre), so it is a faithful model of the JS sort. -/
def sortStreams (l : List StreamEntry) : List StreamEntry :=
  l.insertionSort qualityGE

/-- Inserting `a` does not disturb the fibre of any rank `k`: the inserted
element passes only over entries of strictly greater rank, so it lands in
front of every entry of its own rank and the `k`-fibre is either extended at
the front by `a` (when `a` has rank `k`) or untouched. -/
theorem orderedInsert_filter_rank (a : StreamEntry) (k : Nat) :
    ∀ L : List StreamEntry,
      (L.orderedInsert qualityGE a).filter (fun e => entryRank e == k)
        = if entryRank a == k then
            a :: L.filter (fun e => entryRank e == k)
          else L.filter (fun e => entryRank e == k) := by
  intro L
  induction L with
  | nil =>
      by_cases hk : entryRank a = k <;>
        simp [List.orderedInsert, List.filter_cons, hk]
  | cons b L ih =>
      by_cases hins : qualityGE a b
      · rw [List.orderedInsert_of_le qualityGE L hins]
        by_cases hk : entryRank a = k <;> simp [List.filter_cons, hk]
      · have hge : entryRank a < entryRank b := by
          simpa [qualityGE, Nat.not_le] using hins
        have hins2 : (List.orderedInsert qualityGE a (b :: L))
            = b :: List.orderedInsert qualityGE a L := by
          simp [List.orderedInsert, hins]
        rw [hins2]
        by_cases hbk : entryRank b = k
        · have hak : ¬ entryRank a = k := by omega
          simp [List.filter_cons, hbk, hak, ih]
        · by_cases hak : entryRank a = k <;>
            simp [List.filter_cons, hbk, hak, ih]

/-- Stability of the embedded sort: for every rank `k`, the subsequence of
entries ranked `k` is the same before and after sorting, i.e. ties keep
their original upstream order. -/
theorem sortStreams_filter_rank (l : List StreamEntry) (k : Nat) :
    (sortStreams l).filter (fun e => entryRank e == k)
      = l.filter (fun e => entryRank e == k) := by
  induction l with
  | nil => rfl
  | cons a l ih =>
      have h := orderedInsert_filter_rank a k (sortStreams l)
      by_cases hk : entryRank a = k <;>
        simp_all [sortStreams, List.insertionSort, List.filter_cons, hk]

/-- The three demo sources of the testable property: qualities Auto, 1080p,
720p in upstream order. -/
def demoSources : List Source :=
  [ { url := some "u1", quality := some "Auto", container := some "mp4" },
    { url := some "u2", quality := some "1080p", container := some "mp4" },
    { url := some "u3", quality := some "720p", container := some "mp4" } ]

/-- C5: the stream sort is descending with respect to the fixed rank table
(1080p, 720p, 480p, Auto rank 4, 3, 2, 1; an absent quality is labelled
"Auto"), stable (every fixed-rank fibre keeps its upstream order), and
idempotent; on the demo sources it yields the 1080p, 720p, Auto order and
sorting again changes nothing. -/
theorem streamSort_spec :
    (qualityOrder "1080p" = 4 ∧ qualityOrder "720p" = 3
      ∧ qualityOrder "480p" = 2 ∧ qualityOrder "Auto" = 1)
    ∧ (∀ (u c : Option String) (idx : Nat),
        (mkStreamEntry idx { url := u, quality := none, container := c }).title
          = "Auto - Server " ++ toString (idx + 1))
    ∧ (∀ l : List StreamEntry, List.Sorted qualityGE (sortStreams l))
    ∧ (∀ (l : List StreamEntry) (k : Nat),
        (sortStreams l).filter (fun e => entryRank e == k)
          = l.filter (fun e => entryRank e == k))
    ∧ (∀ l : List StreamEntry, sortStreams (sortStreams l) = sortStreams l)
    ∧ (sortStreams (projectStreams demoSources)).map StreamEntry.title
        = ["1080p - Server 2", "720p - Server 3", "Auto - Server 1"]
    ∧ sortStreams (sortStreams (projectStreams demoSources))
        = sortStreams (projectStreams demoSources) := by
  refine ⟨by decide, ?_, ?_, sortStreams_filter_rank, ?_, ?_, ?_⟩
  · intro u c idx
    rfl
  · intro l
    exact List.sorted_insertionSort qualityGE l
  · intro l
    exact (List.sorted_insertionSort qualityGE l).insertionSort_eq
  · rfl
  · rfl

/-- One episode of a season in the series detail payload. Fields used by the
meta handlers; each may be absent. -/
structure Episode where
  episode_number : Option Nat
  name : Option String
  overview : Option String
  still_path : Option String
  air_date : Option String
deriving DecidableEq

/-- One season of the detail payload. `season_number` is modelled as present:
every variant dereferences it unconditionally and no claim concerns a season
without a number. `episodes` may be absent. -/
structure Season where
  season_number : Nat
  episodes : Option (List Episode)
deriving DecidableEq

/-- The series/movie detail payload (`details`) as read by the meta
handlers. -/
structure Details where
  title : Option String
  name : Option String
  poster : Option String
  image : Option String
  description : Option String
  release_date : Option String
  first_air_date : Option String
  rating : Option Nat
  genre_ids : Option (List Nat)
  runtime : Option Nat
  original_language : Option String
  seasons : Option (List Season)
deriving DecidableEq

/-- One entry of the meta response's `videos` array. The `released` Date
object is not modelled: it is opaque to every claim. -/
structure VideoEntry where
  id : String
  title : String
  season : Nat
  episode : Nat
  overview : Option String
  thumbnail : Option String
deriving DecidableEq

/-- JS `padStart(2, '0')` on a decimal rendering: pad on the left with zeros
up to length 2. -/
def padStart2 (s : String) : String :=
  if 2 ≤ s.length then s else String.mk (List.replicate (2 - s.length) '0') ++ s

/-- The composite video id `MEDIAID:SEASON:EPISODE` (numbers unpadded). -/
def episodeId (mid : String) (sn en : Nat) : String :=
  mid ++ ":" ++ toString sn ++ ":" ++ toString en

/-- The display title `S..E.. - NAME` with both numbers zero-padded to
width 2. -/
def episodeTitle (sn en : Nat) (nm : String) : String :=
  "S" ++ padStart2 (toString sn) ++ "E" ++ padStart2 (toString en) ++ " - " ++ nm

/-- JS template-string rendering of a possibly-undefined string. -/
def jsShowStr : Option String → String
  | none => "undefined"
  | some s => s

/-- Embedding of the guarded flattening loop of the part_002 meta handler:
for each season with an episodes array, push an entry for each episode whose
`episode_number` and `name` are both truthy (`episode.episode_number &&
episode.name`: a present, nonzero number and a present, nonempty name);
`overview: episode.overview || ''`. The accumulator mirrors the JS pushes. -/
def collectVideosGuarded (mid : String) (seasons : List Season) : List VideoEntry :=
  seasons.foldl
    (fun acc se =>
      match se.episodes with
      | some eps =>
          eps.foldl
            (fun acc2 ep =>
              match ep.episode_number, ep.name with
              | some en, some nm =>
                  if en ≠ 0 ∧ nm ≠ "" then
                    acc2 ++ [{ id := episodeId mid se.season_number en
                               title := episodeTitle se.season_number en nm
                               season := se.season_number
                               episode := en
                               overview := some (ep.overview.getD "")
                               thumbnail := ep.still_path }]
                  else acc2
              | _, _ => acc2)
            acc
      | none => acc)
    []

/-- The per-episode projection the guarded loop realises, as an optional
value: the entry when the guard passes, nothing otherwise. -/
def guardedEntry (mid : String) (sn : Nat) (ep : Episode) : Option VideoEntry :=
  match ep.episode_number, ep.name with
  | some en, some nm =>
      if en ≠ 0 ∧ nm ≠ "" then
        some { id := episodeId mid sn en
               title := episodeTitle sn en nm
               season := sn
               episode := en
               overview := some (ep.overview.getD "")
               thumbnail := ep.still_path }
      else none
  | _, _ => none

/-- A fold whose step appends `f x` (when present) collects the
`filterMap`. -/
theorem foldl_step_filterMap {α β : Type} (f : α → Option β)
    (step : List β → α → List β)
    (hstep : ∀ acc x, step acc x
      = match f x with | some b => acc ++ [b] | none => acc) :
    ∀ (l : List α) (acc : List β), l.foldl step acc = acc ++ l.filterMap f := by
  intro l
  induction l with
  | nil => simp
  | cons x rest ih =>
      intro acc
      rw [List.foldl_cons, ih, hstep]
      cases h : f x <;> simp [List.filterMap_cons, h]

/-- A fold whose step appends `g x` collects the flattened bind. -/
theorem foldl_step_bind {α β : Type} (g : α → List β)
    (step : List β → α → List β)
    (hstep : ∀ acc x, step acc x = acc ++ g x) :
    ∀ (l : List α) (acc : List β), l.foldl step acc = acc ++ l.flatMap g := by
  intro l
  induction l with
  | nil => simp
  | cons x rest ih =>
      intro acc
      rw [List.foldl_cons, ih, hstep, List.flatMap_cons, List.append_assoc]

/-- The guarded flattening equals season-wise binding of the per-episode
optional projection. -/
theorem collectVideosGuarded_eq (mid : String) (seasons : List Season) :
    collectVideosGuarded mid seasons
      = seasons.flatMap (fun se =>
          (se.episodes.getD []).filterMap (guardedEntry mid se.season_number)) := by
  have inner : ∀ (sn : Nat) (eps : List Episode) (acc : List VideoEntry),
      eps.foldl
        (fun acc2 ep =>
          match ep.episode_number, ep.name with
          | some en, some nm =>
              if en ≠ 0 ∧ nm ≠ "" then
                acc2 ++ [{ id := episodeId mid sn en
                           title := episodeTitle sn en nm
                           season := sn
                           episode := en
                           overview := some (ep.overview.getD "")
                           thumbnail := ep.still_path }]
              else acc2
          | _, _ => acc2)
        acc
      = acc ++ eps.filterMap (guardedEntry mid sn) := by
    intro sn eps acc
    refine foldl_step_filterMap (guardedEntry mid sn) _ ?_ eps acc
    intro acc2 ep
    unfold guardedEntry
    cases ep.episode_number with
    | none => cases ep.name <;> simp
    | some en =>
        cases ep.name with
        | none => simp
        | some nm =>
            by_cases h : en ≠ 0 ∧ nm ≠ "" <;> simp [h]
  refine foldl_step_bind _ _ ?_ seasons []
  intro acc se
  cases h : se.episodes with
  | none => simp [h]
  | some eps => simp [h, inner se.season_number eps acc]

/-- Embedding of the unguarded flattening loop shared by server.js and the
retry variant: every episode of every season with an episodes array is
pushed; an absent `episode_number` makes `episode_number.toString()` throw a
TypeError (the `.error` case), and an absent `name` interpolates as the text
"undefined" in the title. -/
def collectSeasonUnguarded (mid : String) (sn : Nat) :
    List Episode → Except Unit (List VideoEntry)
  | [] => .ok []
  | ep :: rest =>
      match ep.episode_number with
      | none => .error ()
      | some en => do
          let tail ← collectSeasonUnguarded mid sn rest
          pure ({ id := episodeId mid sn en
                  title := episodeTitle sn en (jsShowStr ep.name)
                  season := sn
                  episode := en
                  overview := ep.overview
                  thumbnail := ep.still_path } :: tail)

/-- The unguarded season loop over all seasons (server.js meta handler). -/
def collectVideosUnguarded (mid : String) (seasons : List Season) :
    Except Unit (List VideoEntry) :=
  seasons.foldlM
    (fun acc se =>
      match se.episodes with
      | some eps => do
          let vs ← collectSeasonUnguarded mid se.season_number eps
          pure (acc ++ vs)
      | none => pure acc)
    []

/-- C7 counterexample: the claim says every episode missing a name produces
no entry, but the server.js meta handler has no guard: season 2, episode 5
with an absent name yields exactly one videos entry, titled
"S02E05 - undefined". -/
theorem episodeSkip_counterexample :
    collectVideosUnguarded "cineby:42"
        [{ season_number := 2,
           episodes := some [{ episode_number := some 5, name := none,
                               overview := none, still_path := none,
                               air_date := none }] }]
      = .ok [{ id := "cineby:42:2:5", title := "S02E05 - undefined",
               season := 2, episode := 5, overview := none, thumbnail := none }]
    ∧ collectVideosUnguarded "cineby:42"
        [{ season_number := 2,
           episodes := some [{ episode_number := some 5, name := none,
                               overview := none, still_path := none,
                               air_date := none }] }]
      ≠ Except.ok [] := by
  refine ⟨rfl, ?_⟩
  intro h
  injection h with h2
  exact List.noConfusion h2

/-- C7 amended: in the guarded part_002 variant the flattening skips exactly
the episodes whose number or name is absent (or falsy: zero or empty — JS
truthiness), and each produced entry carries the composite id
`MEDIAID:SEASON:EPISODE` with unpadded numbers and the title
`S..E.. - NAME` zero-padded to width 2; season 2, episode 5, name
"Homecoming" yields id "cineby:42:2:5" and title "S02E05 - Homecoming",
while its unguarded server.js counterpart emits an entry even for a nameless
episode. -/
theorem episodeVideos_amended :
    (∀ (mid : String) (seasons : List Season),
      collectVideosGuarded mid seasons
        = seasons.flatMap (fun se =>
            (se.episodes.getD []).filterMap (guardedEntry mid se.season_number)))
    ∧ episodeId "cineby:42" 2 5 = "cineby:42:2:5"
    ∧ episodeTitle 2 5 "Homecoming" = "S02E05 - Homecoming"
    ∧ collectVideosGuarded "cineby:42"
        [{ season_number := 2,
           episodes := some
             [ { episode_number := some 4, name := none, overview := none,
                 still_path := none, air_date := none },
               { episode_number := none, name := some "Lost", overview := none,
                 still_path := none, air_date := none },
               { episode_number := some 5, name := some "Homecoming",
                 overview := none, still_path := none, air_date := none } ] }]
        = [{ id := "cineby:42:2:5", title := "S02E05 - Homecoming",
             season := 2, episode := 5, overview := some "",
             thumbnail := none }] := by
  exact ⟨collectVideosGuarded_eq, rfl, rfl, rfl⟩

/-- JS `a || b` on two nullable strings: keep `a` when truthy, else `b`. -/
def jsOrStr (a b : Option String) : Option String :=
  if truthyStr a then a else b

/-- The meta object a meta handler serves. `videos` is present only when the
series branch pushed entries. The JS field `type` is spelled `mtype`. -/
structure MetaObject where
  id : String
  mtype : String
  name : Option String
  poster : Option String
  background : Option String
  description : Option String
  releaseInfo : Option String
  imdbRating : Option String
  genres : List String
  runtime : Option Nat
  language : Option String
  videos : Option (List VideoEntry)
deriving DecidableEq

/-- Construction of the meta object from the detail payload, shared (up to
field fallbacks immaterial here) by the server.js and retry-variant
handlers: fallback chains via JS `||`, `rating ? rating.toString() : null`,
genre mapping, and for a series with a seasons array the unguarded episode
flattening, whose TypeError (absent episode number) propagates as the
`.error` case to the route's catch. -/
def buildMeta (reqId typ : String) (d : Details) : Except Unit MetaObject := do
  let videos ←
    if typ = "series" ∧ d.seasons.isSome then do
      let vs ← collectVideosUnguarded reqId (d.seasons.getD [])
      pure (some vs)
    else
      pure none
  pure
    { id := reqId
      mtype := typ
      name := jsOrStr d.title d.name
      poster := d.poster
      background := d.image
      description := d.description
      releaseInfo := jsOrStr d.release_date d.first_air_date
      imdbRating :=
        match d.rating with
        | some r => if r ≠ 0 then some (toString r) else none
        | none => none
      genres := mapGenreIds (d.genre_ids.getD [])
      runtime := d.runtime
      language := d.original_language
      videos := videos }

/-- Body of a meta route response: a built meta object, the empty-object body
`meta: {}`, or an error body. -/
inductive MetaBody where
  | metaOf (m : MetaObject)
  | emptyMeta
  | errorMsg (msg : String)
deriving DecidableEq

/-- The server.js meta route after the detail lookup: an absent payload is
answered with HTTP 404 and an error body; a thrown TypeError while building
reaches the route catch, which answers 500; otherwise 200 with the meta. -/
def metaHandlerServer (typ reqId : String) (details : Option Details) :
    Nat × MetaBody :=
  match details with
  | none => (404, .errorMsg "Content not found")
  | some d =>
      match buildMeta reqId typ d with
      | .ok m => (200, .metaOf m)
      | .error _ => (500, .errorMsg "Failed to fetch metadata")

/-- The retry-variant meta route (part_002, second file): an absent payload
is answered with HTTP 200 and the empty meta object, and the route catch
also answers 200 with the empty meta object. -/
def metaHandlerRetryVariant (typ reqId : String) (details : Option Details) :
    Nat × MetaBody :=
  match details with
  | none => (200, .emptyMeta)
  | some d =>
      match buildMeta reqId typ d with
      | .ok m => (200, .metaOf m)
      | .error _ => (200, .emptyMeta)

/-- The stream-source payload: a body whose `sources` field may be absent. -/
structure StreamData where
  sources : Option (List Source)
deriving DecidableEq

/-- Body of a stream route response. -/
inductive StreamsBody where
  | streamsOf (l : List StreamEntry)
  | errorMsg (msg : String)
deriving DecidableEq

/-- The stream route after the upstream call: an absent payload or an absent
`sources` field is answered with HTTP 200 and an empty streams list;
otherwise the sources are projected and quality-sorted. -/
def streamHandler (streamData : Option StreamData) : Nat × StreamsBody :=
  match streamData with
  | none => (200, .streamsOf [])
  | some sd =>
      match sd.sources with
      | none => (200, .streamsOf [])
      | some sources => (200, .streamsOf (sortStreams (projectStreams sources)))

/-- JS `Array.prototype.slice` index normalisation: negative indices count
from the end, then clamp into `[0, len]`. -/
def jsSliceIndex (len : Nat) (i : Int) : Int :=
  if i < 0 then max ((len : Int) + i) 0 else min i (len : Int)

/-- JS `l.slice(start, stop)`: the elements from the normalised start
(inclusive) to the normalised stop (exclusive). -/
def jsSlice {α : Type} (l : List α) (start stop : Int) : List α :=
  (l.drop (jsSliceIndex l.length start).toNat).take
    ((jsSliceIndex l.length stop) - (jsSliceIndex l.length start)).toNat

/-- A window of width 20 never holds more than 20 elements, whatever the
start index (including negative ones). -/
theorem jsSlice_window20_length_le {α : Type} (l : List α) (start : Int) :
    (jsSlice l start (start + 20)).length ≤ 20 := by
  have hb : ((jsSliceIndex l.length (start + 20))
      - (jsSliceIndex l.length start)).toNat ≤ 20 := by
    unfold jsSliceIndex
    split_ifs <;> omega
  calc (jsSlice l start (start + 20)).length
      ≤ ((jsSliceIndex l.length (start + 20))
          - (jsSliceIndex l.length start)).toNat := by
        unfold jsSlice
        exact List.length_take_le _ _
    _ ≤ 20 := hb

/-- The trending branch of the catalog route: filter the trending list to the
requested kind (`type === 'series' ? 'tv' : 'movie'`), slice the window
`[skip, skip + 20)`, and project each remaining item. -/
def trendingCatalog (trending : List Item) (typ : String) (skip : Int) :
    List StremioMeta :=
  (jsSlice
      (trending.filter
        (fun item => item.mediaType == some (if typ = "series" then "tv" else "movie")))
      skip (skip + 20)).map transformToStremioMeta

/-- C10: a trending catalog response without a search parameter holds at most
20 metas, because the filtered trending list is sliced to the window
`[skip, skip + 20)` before projection. -/
theorem trendingCatalog_length_le (trending : List Item) (typ : String) (skip : Int) :
    (trendingCatalog trending typ skip).length ≤ 20 := by
  unfold trendingCatalog
  rw [List.length_map]
  exact jsSlice_window20_length_le _ skip

/-- Body of a catalog route response. -/
inductive CatalogBody where
  | metasOf (l : List StremioMeta)
  | errorMsg (msg : String)
deriving DecidableEq

/-- The trending catalog route: `client.getTrending()` resolves to `[]` when
the upstream call fails (its own catch), so the handler sees the empty list
(`trending = none` models the failed lookup) and always answers 200. -/
def catalogTrendingHandler (trending : Option (List Item)) (typ : String)
    (skip : Int) : Nat × CatalogBody :=
  (200, .metasOf (trendingCatalog (trending.getD []) typ skip))

/-- C4 counterexample: a meta request whose upstream detail lookup returns
absent is answered by the server.js handler with HTTP 404 and an error body
— not with HTTP 200 and the empty meta object the claim requires. -/
theorem metaAbsent_counterexample :
    metaHandlerServer "series" "cineby:42" none
      = (404, MetaBody.errorMsg "Content not found")
    ∧ metaHandlerServer "series" "cineby:42" none ≠ (200, MetaBody.emptyMeta) := by
  refine ⟨rfl, ?_⟩
  intro h
  have h1 : (404 : Nat) = 200 := congrArg Prod.fst h
  omega

/-- C4 amended: the stream route and the trending catalog route answer an
absent upstream result with HTTP 200 and the empty collection in every
variant, and the retry-variant meta route answers 200 with the empty meta
object; but the server.js meta route answers an absent detail payload with
HTTP 404. -/
theorem gracefulDegradation_amended :
    (∀ typ reqId : String,
      metaHandlerRetryVariant typ reqId none = (200, MetaBody.emptyMeta))
    ∧ streamHandler none = (200, StreamsBody.streamsOf [])
    ∧ (∀ (typ : String) (skip : Int),
        catalogTrendingHandler none typ skip = (200, CatalogBody.metasOf []))
    ∧ (metaHandlerServer "series" "cineby:42" none).1 = 404 := by
  refine ⟨fun _ _ => rfl, rfl, ?_, rfl⟩
  intro typ skip
  simp [catalogTrendingHandler, trendingCatalog, jsSlice]

end Cineby
